import Mathlib

/-!
Verification development for the high-demand-stock nudging batch
(`high_demand_stock.py`).  The Python code is shallowly embedded:

* a pandas `DataFrame` of candidate rows becomes a `List Row`;
* each `StockDataframeWrapper.filter_*` method becomes a `List.filter`
  over the corresponding row predicate;
* timestamps are ISO-8601 strings in the code, compared lexicographically,
  which agrees with chronological order; we model them as `Option Nat`
  (a larger number = a later instant, `none` = a missing value / NaN);
  a pandas comparison where one side is missing evaluates to `False`,
  which the `opt*` helpers reproduce;
* the result of Python float division (`look_count / tryset_item_count`)
  is modelled by `PyFloat`: on CSV-loaded integer columns numpy yields
  `inf` for `k/0` with `k > 0` and `NaN` for `0/0` (a warning, not an
  exception), and any comparison against `NaN` is `False`;
* the Django ORM tables behind `StockExtraInStockRequest` are modelled by
  an explicit list of records plus product→brand and brand→tier maps.
-/

namespace SuperStock

/-- `apps.brand.enums.SubscriptionType` (the three tiers the task uses). -/
inductive SubscriptionType where
  | NORMAL
  | FREE
  | ENTERPRISE
deriving DecidableEq, Repr

/-- Result of the Python float expression `(look_count / tryset_item_count) * 100`
on numpy integer operands: a finite value, `inf` (positive numerator over zero)
or `NaN` (`0/0`).  Finite values are kept exact, as the unreduced fraction
`num / den` with `den > 0` (the counts are non-negative, so no sign is
needed). -/
inductive PyFloat where
  | frac (num den : Nat)
  | inf
  | nan
deriving DecidableEq, Repr

/-- Python/numpy `x > q` on a float, for a natural threshold `q`
(the code compares against `LOOK_POST_RATE = 40.0`): a finite `num/den`
exceeds `q` iff `q * den < num`; `inf > q` is `True`; any comparison with
`NaN` is `False`. -/
def PyFloat.gt (x : PyFloat) (q : Nat) : Bool :=
  match x with
  | .frac num den => decide (q * den < num)
  | .inf => true
  | .nan => false

/-- One candidate row of the Athena CSV, together with the columns the
filter stage writes (`adquate_stock_count`, `requested_mail`,
`look_post_rate`); the raw CSV arrives with arbitrary values in the three
derived columns and `annotateRow` overwrites them. -/
structure Row where
  product_id : Nat
  brand_id : Nat
  current_in_stock_count : Int
  view_count : Int
  accumulative_product_like_count : Int
  look_count : Nat
  tryset_item_count : Nat
  latest_tryset_item_created_time : Option Nat
  first_in_stock_time : Option Nat
  stock_count : Int
  adquate_stock_count : Int
  requested_mail : Bool
  look_post_rate : PyFloat
deriving DecidableEq, Repr

/-- pandas comparison `series > cutoff` for a timestamp column: a missing
value compares `False`. -/
def optGT (o : Option Nat) (cutoff : Nat) : Bool :=
  match o with
  | none => false
  | some t => decide (cutoff < t)

/-- pandas comparison `series < cutoff`: missing compares `False`. -/
def optLT (o : Option Nat) (cutoff : Nat) : Bool :=
  match o with
  | none => false
  | some t => decide (t < cutoff)

/-- pandas comparison `series <= cutoff`: missing compares `False`. -/
def optLE (o : Option Nat) (cutoff : Nat) : Bool :=
  match o with
  | none => false
  | some t => decide (t ≤ cutoff)

/-- pandas elementwise `series != None`: every element (a string or NaN)
differs from the `None` object, so the test is `True` for every row.  This
mirrors line 62 of the source, where the intended null check is vacuous. -/
def seriesNeNone (_o : Option Nat) : Bool := true

/-! ## StockDataframeWrapper (lines 25-77) -/

/-- `filter_idle_stock`: keep rows with `current_in_stock_count <= in_stock_count`. -/
def filter_idle_stock (in_stock_count : Int) (df : List Row) : List Row :=
  df.filter (fun r => decide (r.current_in_stock_count ≤ in_stock_count))

/-- `filter_view_count`: keep rows with `view_count > view_count_arg`. -/
def filter_view_count (view_count : Int) (df : List Row) : List Row :=
  df.filter (fun r => decide (view_count < r.view_count))

/-- `filter_like_count`: keep rows with `accumulative_product_like_count > like_count`. -/
def filter_like_count (like_count : Int) (df : List Row) : List Row :=
  df.filter (fun r => decide (like_count < r.accumulative_product_like_count))

/-- `filter_last_tryset_time`: keep rows with
`latest_tryset_item_created_time > last_tryset_item_created_time`. -/
def filter_last_tryset_time (last_tryset_item_created_time : Nat) (df : List Row) : List Row :=
  df.filter (fun r => optGT r.latest_tryset_item_created_time last_tryset_item_created_time)

/-- `filter_adequate_stock_count`: keep rows with `adquate_stock_count > stock_count`. -/
def filter_adequate_stock_count (df : List Row) : List Row :=
  df.filter (fun r => decide (r.stock_count < r.adquate_stock_count))

/-- `filter_look_upload_rate` (lines 54-74): the row-level Boolean of the
`.loc` mask, literally
`(first_in_stock_time != None) & ((look_post_rate > rate & first <= over_time) | (first < first_time & first > over_time))`. -/
def look_upload_rate_pred (look_upload_rate : Nat) (look_upload_rate_over_time : Nat)
    (first_in_stock_time : Nat) (r : Row) : Bool :=
  seriesNeNone r.first_in_stock_time
    && ((r.look_post_rate.gt look_upload_rate && optLE r.first_in_stock_time look_upload_rate_over_time)
      || (optLT r.first_in_stock_time first_in_stock_time
          && optGT r.first_in_stock_time look_upload_rate_over_time))

/-- `filter_look_upload_rate` applied to the frame. -/
def filter_look_upload_rate (look_upload_rate : Nat) (look_upload_rate_over_time : Nat)
    (first_in_stock_time : Nat) (df : List Row) : List Row :=
  df.filter (look_upload_rate_pred look_upload_rate look_upload_rate_over_time first_in_stock_time)

/-- The key order used by `sort(key="view_count", ascending=False)`:
descending `view_count`. -/
def viewGE (a b : Row) : Prop := b.view_count ≤ a.view_count

instance : DecidableRel viewGE := fun a b =>
  inferInstanceAs (Decidable (b.view_count ≤ a.view_count))

instance : IsTotal Row viewGE := ⟨fun a b => le_total b.view_count a.view_count⟩

instance : IsTrans Row viewGE := ⟨fun _ _ _ h₁ h₂ => le_trans h₂ h₁⟩

/-- `sort(key="view_count", ascending=False)`: some reordering of the frame
by descending `view_count`.  (pandas `sort_values` defaults to numpy
quicksort; we model it with a concrete comparison sort producing a
permutation in descending `view_count` order.  None of the proved claims
depends on the tie order this particular algorithm picks.) -/
def sortByViewDesc (df : List Row) : List Row :=
  List.insertionSort viewGE df

/-! ## HighDemandStockFilter (lines 80-162) -/

/-- Class constant `IN_STOCK_COUNT`. -/
def IN_STOCK_COUNT : Int := 1
/-- Class constant `VIEW_COUNT`. -/
def VIEW_COUNT : Int := 20
/-- Class constant `LIKE_COUNT`. -/
def LIKE_COUNT : Int := 15
/-- Class constant `ADEQUATE_STOCK_COUNT`. -/
def ADEQUATE_STOCK_COUNT : List Int := [15, 10, 5]
/-- Class constant `LOOK_POST_RATE`. -/
def LOOK_POST_RATE : Nat := 40

/-- The three cutoff timestamps `filter_high_demand_stock` computes once per
run: `last_n_months_from_now(1)`, `last_n_months_from_now(3)`,
`last_n_weeks_from_now(1)`.  In chronological order
`COLD_START_PRODUCT_TIME < LAST_TRYSET_ITEM_CREATED_TIME < FIRST_IN_STOCK_TIME`. -/
structure Cutoffs where
  LAST_TRYSET_ITEM_CREATED_TIME : Nat
  COLD_START_PRODUCT_TIME : Nat
  FIRST_IN_STOCK_TIME : Nat

/-- `__check_product_requested`: membership of the row's product in the
distinct all-time set of `StockExtraInStockRequest` products
(`sent_mail_product`). -/
def check_product_requested (sent_mail_product : List Nat) (r : Row) : Bool :=
  r.product_id ∈ sent_mail_product

/-- `__set_adequate_stock_count` (lines 96-110): 15 for `view_count > 100`,
else 10 for `view_count > 50` and likes `> 20`, else 5. -/
def set_adequate_stock_count (r : Row) : Int :=
  if r.view_count > 100 then
    ADEQUATE_STOCK_COUNT[0]!
  else if r.view_count > 50 ∧ r.accumulative_product_like_count > 20 then
    ADEQUATE_STOCK_COUNT[1]!
  else
    ADEQUATE_STOCK_COUNT[2]!

/-- `__set_look_post_rate` (lines 112-113): `(look_count / tryset_item_count) * 100`
under numpy float semantics (`k/0 = inf` for `k > 0`, `0/0 = NaN`). -/
def set_look_post_rate (r : Row) : PyFloat :=
  if r.tryset_item_count = 0 then
    if r.look_count = 0 then PyFloat.nan else PyFloat.inf
  else
    PyFloat.frac (r.look_count * 100) r.tryset_item_count

/-- The three `df.apply` column assignments of `filter_high_demand_stock`
(lines 122-124) on one row. -/
def annotateRow (sent_mail_product : List Nat) (r : Row) : Row :=
  { r with
    adquate_stock_count := set_adequate_stock_count r
    requested_mail := check_product_requested sent_mail_product r
    look_post_rate := set_look_post_rate r }

/-- The column assignments over the whole frame. -/
def annotateAll (sent_mail_product : List Nat) (df : List Row) : List Row :=
  df.map (annotateRow sent_mail_product)

/-- `filter_high_demand_stock` (lines 115-135): annotate the three derived
columns, run the six chained wrapper filters, and sort by `view_count`
descending. -/
def filter_high_demand_stock (sent_mail_product : List Nat) (c : Cutoffs)
    (df : List Row) : List Row :=
  sortByViewDesc
    (filter_look_upload_rate LOOK_POST_RATE c.COLD_START_PRODUCT_TIME c.FIRST_IN_STOCK_TIME
      (filter_adequate_stock_count
        (filter_last_tryset_time c.LAST_TRYSET_ITEM_CREATED_TIME
          (filter_like_count LIKE_COUNT
            (filter_view_count VIEW_COUNT
              (filter_idle_stock IN_STOCK_COUNT
                (annotateAll sent_mail_product df)))))))

/-! ## HighDemandStockNudge (lines 165-203) and the ORM tables it reads -/

/-- One `StockExtraInStockRequest` row, as read for deduplication: the
product reference and the `requested_time` timestamp. -/
structure OutreachRecord where
  product : Nat
  requested_time : Nat
deriving DecidableEq, Repr

/-- The persistence store the nudge queries: the outreach table plus the
`product__brand` foreign key and each brand's `subscription_type`. -/
structure DB where
  records : List OutreachRecord
  brandOf : Nat → Nat
  tierOf : Nat → SubscriptionType

/-- `set(StockExtraInStockRequest.objects.values_list("product", flat=True).distinct("product"))`
(lines 120-121): the distinct all-time product ids of the outreach table.
A plain projection; `∈` on it agrees with `∈` on the deduplicated set. -/
def sent_mail_product (db : DB) : List Nat :=
  db.records.map (·.product)

/-- Class constant `MAIL_CYCLE_WEEKS`. -/
def MAIL_CYCLE_WEEKS : Nat := 3

/-- `__filter_brands` (lines 174-181): the distinct `product__brand` ids of
the outreach records matching
`~Q(product__brand__subscription_type=ENTERPRISE) | Q(requested_time__gte=cycle)`,
where `cycle = last_n_weeks_from_now(weeks)`. -/
def filter_brands (db : DB) (cycle : Nat) : List Nat :=
  (db.records.filter (fun r =>
    (db.tierOf (db.brandOf r.product) != SubscriptionType.ENTERPRISE)
      || decide (cycle ≤ r.requested_time))).map (fun r => db.brandOf r.product)

/-- The group keys of `self.high_demand_stock.groupby("brand_id")`:
the distinct brand ids, in ascending order (pandas groups sort their keys). -/
def groupKeys (df : List Row) : List Nat :=
  List.insertionSort (· ≤ ·) (df.map (·.brand_id)).dedup

/-- The group of one key: the rows of that brand, in frame order. -/
def groupRows (df : List Row) (brand_id : Nat) : List Row :=
  df.filter (fun r => r.brand_id = brand_id)

/-- `get_high_demand_product` (lines 183-191): for every brand group whose
key is not in `__filter_brands(MAIL_CYCLE_WEEKS)`, store the rows of the
group whose `requested_mail` column (exported as "3주내 요청이력") is
`False`.  `cycle` is the run's 3-week cutoff timestamp. -/
def get_high_demand_product (db : DB) (cycle : Nat) (df : List Row) :
    List (Nat × List Row) :=
  (groupKeys df).filterMap (fun b =>
    if b ∈ filter_brands db cycle then
      none
    else
      some (b, (groupRows df b).filter (fun r => r.requested_mail = false)))

/-- One row persisted by `save_instock_request` (lines 193-203):
`StockExtraInStockRequest(product=…, round=0, requested_time=now, request_amount=row["적정 재고수"])`. -/
structure SavedRecord where
  product : Nat
  round : Nat
  requested_time : Nat
  request_amount : Int
deriving DecidableEq, Repr

/-- `save_instock_request`: the rows handed to `bulk_create` for one
brand's dataframe. -/
def save_instock_request (now : Nat) (df : List Row) : List SavedRecord :=
  df.map (fun r =>
    { product := r.product_id
      round := 0
      requested_time := now
      request_amount := r.adquate_stock_count })

/-! ## TaskStockNudging.handle — the per-brand send loop (lines 358-382) -/

/-- Where the `try` body of the loop can raise: exporting the spreadsheet
(`__export_dataframe`), sending the mail (`__send_mail`), or persisting the
records (`bulk_create`). -/
inductive FailPoint where
  | exportStep
  | sendStep
  | saveStep
deriving DecidableEq, Repr

/-- Outcome of the loop over `send_brand_list`: the outreach rows written
per brand, and the success / failed name lists of the summary message. -/
structure LoopResult where
  persisted : List (Nat × List SavedRecord)
  success : List Nat
  failed : List Nat
deriving DecidableEq, Repr

/-- The `for brand in send_brand_list` loop: per brand, run
export → send → `save_instock_request` inside `try`; any exception sends the
brand to the failed list with nothing persisted (the `bulk_create` only runs
after the mail was sent without error).  `fails b` says which step, if any,
raises for brand `b`. -/
def brandLoop (now : Nat) (fails : Nat → Option FailPoint) :
    List (Nat × List Row) → LoopResult
  | [] => { persisted := [], success := [], failed := [] }
  | (b, rows) :: rest =>
    let res := brandLoop now fails rest
    match fails b with
    | some _ =>
      { persisted := res.persisted
        success := res.success
        failed := b :: res.failed }
    | none =>
      { persisted := (b, save_instock_request now rows) :: res.persisted
        success := b :: res.success
        failed := res.failed }

/-! ## Mail recipients (lines 287-305, 370-376) -/

/-- The fixed internal recipient appended on line 375. -/
def INTERNAL_MAIL : String := "thkim@brandazine.com"

/-- Lines 372-375: `brand_emails = list(admins emails)`, then the business
email when the brand has a truthy one, then the internal address. -/
def build_brand_emails (admin_emails : List String) (business_email : Option String) :
    List String :=
  (admin_emails ++ business_email.toList) ++ [INTERNAL_MAIL]

/-- `settings.SERVICE_MODE` values on which `__send_mail` returns without
sending (lines 288-293). -/
inductive ServiceMode where
  | test
  | debug
  | local
  | production
deriving DecidableEq, Repr

/-- `__send_mail`: in test/debug/local mode no mail goes out (`none`);
otherwise the message is sent with `to=brand_mails`, and we return the
recipient list of the sent mail. -/
def send_mail (mode : ServiceMode) (brand_mails : List String) : Option (List String) :=
  match mode with
  | .test => none
  | .debug => none
  | .local => none
  | .production => some brand_mails

/-! ## Concrete scenarios used by several claims -/

/-- A store whose only outreach record is for product 1 at time 0, where
product 1 belongs to brand 10 and brand 10 is ENTERPRISE.  With the 3-week
cutoff placed at time 100, that record is well outside the window (about
five weeks old on the scale used below). -/
def dbEnterpriseOld : DB :=
  { records := [{ product := 1, requested_time := 0 }]
    brandOf := fun _ => 10
    tierOf := fun _ => SubscriptionType.ENTERPRISE }

/-- The candidate row of product 1 / brand 10 as it reaches the nudge step
(derived columns already written by the filter stage). -/
def rowEnterpriseOld : Row :=
  { product_id := 1
    brand_id := 10
    current_in_stock_count := 0
    view_count := 120
    accumulative_product_like_count := 30
    look_count := 4
    tryset_item_count := 5
    latest_tryset_item_created_time := some 150
    first_in_stock_time := some 40
    stock_count := 0
    adquate_stock_count := 15
    requested_mail := true
    look_post_rate := PyFloat.frac 400 5 }

/-- A store with no outreach records at all, a NORMAL brand 7 owning
product 1. -/
def dbNormalEmpty : DB :=
  { records := []
    brandOf := fun _ => 7
    tierOf := fun _ => SubscriptionType.NORMAL }

/-- A candidate row of brand 7 with no request history. -/
def rowNormalFresh : Row :=
  { product_id := 1
    brand_id := 7
    current_in_stock_count := 0
    view_count := 60
    accumulative_product_like_count := 25
    look_count := 4
    tryset_item_count := 5
    latest_tryset_item_created_time := some 150
    first_in_stock_time := some 40
    stock_count := 0
    adquate_stock_count := 10
    requested_mail := false
    look_post_rate := PyFloat.frac 400 5 }

/-- A store whose only record is for product 1 of NORMAL brand 7, at
time 0 — five weeks before the cutoff at time 100. -/
def dbNormalOld : DB :=
  { records := [{ product := 1, requested_time := 0 }]
    brandOf := fun _ => 7
    tierOf := fun _ => SubscriptionType.NORMAL }

/-- A store whose only record is for product 2 of ENTERPRISE brand 9 at
time 200, inside the 3-week window when the cutoff is 100. -/
def dbEnterpriseRecent : DB :=
  { records := [{ product := 2, requested_time := 200 }]
    brandOf := fun _ => 9
    tierOf := fun _ => SubscriptionType.ENTERPRISE }

/-! ## Claims -/

/-- The §4.1 tier rule as stated by the spec: a function of
`(view_count, accumulative_product_like_count)` alone, first match wins. -/
def adequate_spec (view like : Int) : Int :=
  if view > 100 then 15
  else if view > 50 ∧ like > 20 then 10
  else 5

/-- Claim C5: for every row the assigned `adquate_stock_count` is an element
of the code's tier list `{15, 10, 5}` and coincides with the spec's tier
rule, a pure first-match-wins function of
`(view_count, accumulative_product_like_count)`. -/
theorem C5_adequate_stock_count_tier (r : Row) :
    set_adequate_stock_count r ∈ ADEQUATE_STOCK_COUNT
      ∧ set_adequate_stock_count r
          = adequate_spec r.view_count r.accumulative_product_like_count := by
  unfold set_adequate_stock_count adequate_spec ADEQUATE_STOCK_COUNT
  constructor
  · split
    · simp
    · split <;> simp
  · split
    · simp
    · split <;> simp

/-- Claim C10: every brand mail that is actually sent goes to the brand's
admin addresses, its business address when present, and additionally the
fixed internal address `thkim@brandazine.com`. -/
theorem C10_internal_recipient (mode : ServiceMode) (admin_emails : List String)
    (business_email : Option String) (sent : List String)
    (h : send_mail mode (build_brand_emails admin_emails business_email) = some sent) :
    INTERNAL_MAIL ∈ sent
      ∧ (∀ e ∈ admin_emails, e ∈ sent)
      ∧ (∀ b, business_email = some b → b ∈ sent) := by
  cases mode <;> simp only [send_mail] at h
  · cases h
  · cases h
  · cases h
  · cases h
    refine ⟨?_, ?_, ?_⟩
    · simp [build_brand_emails]
    · intro e he
      simp [build_brand_emails, he]
    · intro b hb
      simp [build_brand_emails, hb]

/-- Witness for C10 at a concrete brand: one admin address and a business
address, in production mode. -/
theorem C10_internal_recipient_witness :
    INTERNAL_MAIL ∈ build_brand_emails ["a@x.com"] (some "b@x.com") :=
  (C10_internal_recipient ServiceMode.production ["a@x.com"] (some "b@x.com")
    (build_brand_emails ["a@x.com"] (some "b@x.com")) rfl).1

/-- Claim C3: outreach rows are persisted for a brand only when no step of
its try-block raised — in particular a delivery (send) failure leaves
nothing persisted for that brand in the run. -/
theorem C3_record_after_success (now : Nat) (fails : Nat → Option FailPoint)
    (mail_list : List (Nat × List Row)) (b : Nat) (recs : List SavedRecord)
    (h : (b, recs) ∈ (brandLoop now fails mail_list).persisted) :
    fails b = none := by
  induction mail_list with
  | nil => simp [brandLoop] at h
  | cons hd tl ih =>
    obtain ⟨b', rows⟩ := hd
    simp only [brandLoop] at h
    cases hfb : fails b' with
    | some fp =>
      rw [hfb] at h
      exact ih h
    | none =>
      rw [hfb] at h
      simp only [List.mem_cons] at h
      rcases h with h | h
      · rw [Prod.mk.injEq] at h
        rw [← h.1] at hfb
        exact hfb
      · exact ih h

/-- Witness for C3: a one-brand run in which nothing fails and the brand's
rows are persisted. -/
theorem C3_record_after_success_witness :
    (fun _ : Nat => (none : Option FailPoint)) 1 = none :=
  C3_record_after_success 5 (fun _ => none) [(1, [rowNormalFresh])] 1
    (save_instock_request 5 [rowNormalFresh]) (by decide)

/-- Claim C1 (evidence of the divergence): with the 3-week cutoff at
time 100, the excluded-brand query returns NORMAL brand 7 although its only
record (time 0) is far outside the window, and it also returns ENTERPRISE
brand 9 because of its in-window record — while the claim (and the
method's own docstring) require exactly the opposite on both counts. -/
theorem C1_filter_brands_divergence :
    (7 ∈ filter_brands dbNormalOld 100
      ∧ ∀ r ∈ dbNormalOld.records, r.requested_time < 100)
    ∧ (9 ∈ filter_brands dbEnterpriseRecent 100
      ∧ dbEnterpriseRecent.tierOf 9 = SubscriptionType.ENTERPRISE
      ∧ ∀ r ∈ dbEnterpriseRecent.records, 100 ≤ r.requested_time) := by
  decide

/-- Claim C2 (evidence of the divergence): product 1's only outreach record
is five weeks before the cutoff at 100, yet `__check_product_requested`
flags it (its membership test is against the all-time product set), and the
nudge step drops it from its (ENTERPRISE, cycle-surviving) brand's batch. -/
theorem C2_all_time_flag_divergence :
    (∀ r ∈ dbEnterpriseOld.records, r.requested_time < 100)
    ∧ check_product_requested (sent_mail_product dbEnterpriseOld) rowEnterpriseOld = true
    ∧ get_high_demand_product dbEnterpriseOld 100
        [annotateRow (sent_mail_product dbEnterpriseOld) rowEnterpriseOld]
      = [(10, [])] := by
  decide

/-- Claim C7 (counterexample): the deduplication output can contain a brand
key whose product set is empty — ENTERPRISE brand 10 survives the cycle
filter (its only record is old) while its sole product is flagged, leaving
`(10, [])` in the mapping. -/
theorem C7_empty_group_counterexample :
    (10, ([] : List Row)) ∈
      get_high_demand_product dbEnterpriseOld 100
        [annotateRow (sent_mail_product dbEnterpriseOld) rowEnterpriseOld] := by
  decide

/-- The cutoff triple of a demo run on the abstract time scale used by the
concrete rows: one month ago = 100, three months ago = 50, one week
ago = 170. -/
def cutoffsDemo : Cutoffs :=
  { LAST_TRYSET_ITEM_CREATED_TIME := 100
    COLD_START_PRODUCT_TIME := 50
    FIRST_IN_STOCK_TIME := 170 }

/-- A row whose `tryset_item_count` is zero but which satisfies every other
eligibility criterion. -/
def rowZeroDenominator : Row :=
  { product_id := 3
    brand_id := 4
    current_in_stock_count := 1
    view_count := 50
    accumulative_product_like_count := 30
    look_count := 1
    tryset_item_count := 0
    latest_tryset_item_created_time := some 150
    first_in_stock_time := some 40
    stock_count := 0
    adquate_stock_count := 0
    requested_mail := false
    look_post_rate := PyFloat.nan }

/-- Claim C8 (evidence of the divergence): a row with
`tryset_item_count = 0` gets `look_post_rate = inf` (numpy division by
zero), which passes the `> 40` gate, and the row comes out of the
eligibility chain fully eligible — no error, no sentinel, not ineligible. -/
theorem C8_zero_denominator_divergence :
    rowZeroDenominator.tryset_item_count = 0
    ∧ set_look_post_rate rowZeroDenominator = PyFloat.inf
    ∧ annotateRow [] rowZeroDenominator
        ∈ filter_high_demand_stock [] cutoffsDemo [rowZeroDenominator] := by
  decide

/-! ## The filter chain as a predicate: helpers shared by C4 and C9 -/

/-- A `map` whose function fixes every element of the list is the
identity. -/
theorem map_eq_self_of_fixed {α : Type} (f : α → α) :
    ∀ l : List α, (∀ a ∈ l, f a = a) → l.map f = l
  | [], _ => rfl
  | a :: t, h => by
    simp only [List.map_cons, h a (List.mem_cons_self a t)]
    rw [map_eq_self_of_fixed f t (fun x hx => h x (List.mem_cons_of_mem a hx))]

/-- `annotateRow` only reads raw columns, which it does not change, so it
is idempotent. -/
theorem annotateRow_idem (sent : List Nat) (r : Row) :
    annotateRow sent (annotateRow sent r) = annotateRow sent r := by
  cases r
  rfl

/-- The row-level conjunction tested by the six chained filters, in the
code's own shape. -/
def chainPred (c : Cutoffs) (r : Row) : Prop :=
  r.current_in_stock_count ≤ IN_STOCK_COUNT
    ∧ VIEW_COUNT < r.view_count
    ∧ LIKE_COUNT < r.accumulative_product_like_count
    ∧ optGT r.latest_tryset_item_created_time c.LAST_TRYSET_ITEM_CREATED_TIME = true
    ∧ r.stock_count < r.adquate_stock_count
    ∧ look_upload_rate_pred LOOK_POST_RATE c.COLD_START_PRODUCT_TIME
        c.FIRST_IN_STOCK_TIME r = true

/-- Membership in the chain's output is membership in the annotated frame
plus the six filter predicates. -/
theorem mem_filter_chain (sent : List Nat) (c : Cutoffs) (df : List Row) (r : Row) :
    r ∈ filter_high_demand_stock sent c df ↔
      r ∈ annotateAll sent df ∧ chainPred c r := by
  simp only [filter_high_demand_stock, sortByViewDesc, List.mem_insertionSort,
    filter_look_upload_rate, filter_adequate_stock_count, filter_last_tryset_time,
    filter_like_count, filter_view_count, filter_idle_stock, List.mem_filter,
    chainPred, decide_eq_true_eq]
  tauto

/-- The look-upload gate in the phrasing of the claim: explicit non-null
first-in-stock time, then mature-with-rate or in the grace window. -/
theorem look_pred_iff (c3 w1 : Nat) (r : Row) :
    look_upload_rate_pred LOOK_POST_RATE c3 w1 r = true ↔
      (r.first_in_stock_time.isSome = true
        ∧ ((r.look_post_rate.gt LOOK_POST_RATE = true
              ∧ optLE r.first_in_stock_time c3 = true)
          ∨ (optGT r.first_in_stock_time c3 = true
              ∧ optLT r.first_in_stock_time w1 = true))) := by
  cases h : r.first_in_stock_time <;>
    simp [look_upload_rate_pred, seriesNeNone, optLE, optLT, optGT, h, and_comm]

/-- Claim C4: a row appears in the eligibility chain's output iff it is an
annotated input row satisfying all six predicates — idle stock at most 1,
view count over 20, likes over 15, tryset activity after the one-month
cutoff (missing fails), adequate stock above the stock_count field, and the
look-upload maturity gate with a non-null first-in-stock time; the output
is the intersection of the predicates. -/
theorem C4_output_iff_predicates (sent : List Nat) (c : Cutoffs) (df : List Row) (r : Row) :
    r ∈ filter_high_demand_stock sent c df ↔
      (r ∈ annotateAll sent df
        ∧ r.current_in_stock_count ≤ 1
        ∧ 20 < r.view_count
        ∧ 15 < r.accumulative_product_like_count
        ∧ optGT r.latest_tryset_item_created_time c.LAST_TRYSET_ITEM_CREATED_TIME = true
        ∧ r.stock_count < r.adquate_stock_count
        ∧ (r.first_in_stock_time.isSome = true
          ∧ ((r.look_post_rate.gt LOOK_POST_RATE = true
                ∧ optLE r.first_in_stock_time c.COLD_START_PRODUCT_TIME = true)
            ∨ (optGT r.first_in_stock_time c.COLD_START_PRODUCT_TIME = true
                ∧ optLT r.first_in_stock_time c.FIRST_IN_STOCK_TIME = true)))) := by
  rw [mem_filter_chain]
  unfold chainPred IN_STOCK_COUNT VIEW_COUNT LIKE_COUNT
  rw [look_pred_iff]

/-- Claim C9: the eligibility filter chain is idempotent — applied to its
own output (with the same run snapshot of the outreach table and the same
cutoffs) it returns that output unchanged: every surviving row still
carries its recomputed derived columns, still passes all six predicates,
and the frame is already sorted. -/
theorem C9_filter_chain_idempotent (sent : List Nat) (c : Cutoffs) (df : List Row) :
    filter_high_demand_stock sent c (filter_high_demand_stock sent c df)
      = filter_high_demand_stock sent c df := by
  set ys := filter_high_demand_stock sent c df with hys
  have hmem : ∀ r ∈ ys, r ∈ annotateAll sent df ∧ chainPred c r :=
    fun r hr => (mem_filter_chain sent c df r).1 hr
  have hfix : ∀ r ∈ ys, annotateRow sent r = r := by
    intro r hr
    obtain ⟨hann, -⟩ := hmem r hr
    simp only [annotateAll, List.mem_map] at hann
    obtain ⟨r₀, -, hr₀⟩ := hann
    rw [← hr₀, annotateRow_idem]
  have hann2 : annotateAll sent ys = ys := map_eq_self_of_fixed _ ys hfix
  have h1 : filter_idle_stock IN_STOCK_COUNT ys = ys := by
    unfold filter_idle_stock
    exact List.filter_eq_self.mpr fun r hr => by
      simpa using (hmem r hr).2.1
  have h2 : filter_view_count VIEW_COUNT ys = ys := by
    unfold filter_view_count
    exact List.filter_eq_self.mpr fun r hr => by
      simpa using (hmem r hr).2.2.1
  have h3 : filter_like_count LIKE_COUNT ys = ys := by
    unfold filter_like_count
    exact List.filter_eq_self.mpr fun r hr => by
      simpa using (hmem r hr).2.2.2.1
  have h4 : filter_last_tryset_time c.LAST_TRYSET_ITEM_CREATED_TIME ys = ys := by
    unfold filter_last_tryset_time
    exact List.filter_eq_self.mpr fun r hr => (hmem r hr).2.2.2.2.1
  have h5 : filter_adequate_stock_count ys = ys := by
    unfold filter_adequate_stock_count
    exact List.filter_eq_self.mpr fun r hr => by
      simpa using (hmem r hr).2.2.2.2.2.1
  have h6 : filter_look_upload_rate LOOK_POST_RATE c.COLD_START_PRODUCT_TIME
      c.FIRST_IN_STOCK_TIME ys = ys := by
    unfold filter_look_upload_rate
    exact List.filter_eq_self.mpr fun r hr => (hmem r hr).2.2.2.2.2.2
  have hsorted : List.Sorted viewGE ys := by
    rw [hys]
    unfold filter_high_demand_stock sortByViewDesc
    exact List.sorted_insertionSort viewGE _
  have hsort : sortByViewDesc ys = ys := by
    unfold sortByViewDesc
    exact hsorted.insertionSort_eq
  conv_lhs => unfold filter_high_demand_stock
  rw [hann2, h1, h2, h3, h4, h5, h6, hsort]

/-- Claim C7 (amended): every brand key of the deduplication output whose
subscription tier is not ENTERPRISE maps to a non-empty product set,
provided the frame's `requested_mail` flags and `brand_id` column are
consistent with the outreach store. -/
theorem C7_nonempty_for_non_enterprise (db : DB) (cycle : Nat) (df : List Row)
    (hflag : ∀ r ∈ df, r.requested_mail = true → r.product_id ∈ sent_mail_product db)
    (hbrand : ∀ r ∈ df, db.brandOf r.product_id = r.brand_id)
    (b : Nat) (ps : List Row)
    (hmem : (b, ps) ∈ get_high_demand_product db cycle df)
    (hent : db.tierOf b ≠ SubscriptionType.ENTERPRISE) :
    ps ≠ [] := by
  simp only [get_high_demand_product, List.mem_filterMap] at hmem
  obtain ⟨b', hb', hsome⟩ := hmem
  by_cases hf : b' ∈ filter_brands db cycle
  · rw [if_pos hf] at hsome
    exact absurd hsome (by simp)
  · rw [if_neg hf] at hsome
    rw [Option.some.injEq, Prod.mk.injEq] at hsome
    obtain ⟨hbb, hps⟩ := hsome
    subst hbb
    simp only [groupKeys, List.mem_insertionSort, List.mem_dedup, List.mem_map] at hb'
    obtain ⟨r₀, hr₀df, hr₀b⟩ := hb'
    have hrm : r₀.requested_mail = false := by
      cases hrm : r₀.requested_mail with
      | false => rfl
      | true =>
        exfalso
        have hp := hflag r₀ hr₀df hrm
        simp only [sent_mail_product, List.mem_map] at hp
        obtain ⟨rec, hrec, hrecp⟩ := hp
        refine hf ?_
        simp only [filter_brands, List.mem_map, List.mem_filter]
        refine ⟨rec, ⟨hrec, ?_⟩, by rw [hrecp, hbrand r₀ hr₀df, hr₀b]⟩
        have : db.tierOf (db.brandOf rec.product) ≠ SubscriptionType.ENTERPRISE := by
          rw [hrecp, hbrand r₀ hr₀df, hr₀b]
          exact hent
        simp [this]
    have hr₀ps : r₀ ∈ ps := by
      rw [← hps]
      simp only [groupRows, List.mem_filter, decide_eq_true_eq]
      exact ⟨⟨hr₀df, hr₀b⟩, hrm⟩
    exact List.ne_nil_of_mem hr₀ps

/-- Witness for the amended C7 at a concrete store: a NORMAL brand with no
outreach history keeps its (non-empty) product group. -/
theorem C7_nonempty_for_non_enterprise_witness :
    ([rowNormalFresh] : List Row) ≠ [] :=
  C7_nonempty_for_non_enterprise dbNormalEmpty 100 [rowNormalFresh]
    (by decide) (by decide) 7 [rowNormalFresh] (by decide) (by decide)

end SuperStock
